import Mathlib

/-!
Verification development for the will-writing-service backend
(`main.py`, `schemas.py`).  The document store (MongoDB accessed through
`database.py`, which is not part of the sources) is modelled as in-memory
association lists from string object-ids to documents; the current wall
clock (`datetime.utcnow()`) is passed to each operation as a natural
number `now`.
-/

namespace WillService

/-- Result of `raise HTTPException(status_code=..., detail=...)`. -/
structure Err where
  status_code : Nat
  detail : String
deriving Repr, DecidableEq

/-- Model of `schemas.Plan` together with the `created_at` / `updated_at` stamps
that `ensure_default_plans` adds to each seeded document. -/
structure PlanDoc where
  name : String
  description : String
  price : ℚ
  features : List String
  created_at : Nat
  updated_at : Nat
deriving Repr, DecidableEq

/-- Model of `schemas.Order`, the stored order document, together with the
`created_at` / `updated_at` stamps the store adds on insertion. -/
structure OrderDoc where
  plan_id : String
  plan_name : String
  plan_price : ℚ
  first_name : String
  last_name : String
  email : String
  phone : Option String
  address_line1 : String
  address_line2 : Option String
  city : String
  state : Option String
  postal_code : String
  country : String
  notes : Option String
  status : String
  payment_reference : Option String
  total : ℚ
  created_at : Nat
  updated_at : Nat
deriving Repr, DecidableEq

/-- Model of `main.CreateOrderBody` (the `EmailStr` is modelled as a string). -/
structure CreateOrderBody where
  plan_id : String
  first_name : String
  last_name : String
  email : String
  phone : Option String := none
  address_line1 : String
  address_line2 : Option String := none
  city : String
  state : Option String := none
  postal_code : String
  country : String
  notes : Option String := none
deriving Repr, DecidableEq

/-- Model of `main.PaymentBody`. -/
structure PaymentBody where
  method : String := "card"
  token : Option String := none
deriving Repr, DecidableEq

/-- The document store: the `plan` and `order` collections keyed by the
canonical (lower-case hex) string form of their ObjectIds, plus the
store-side counter from which fresh ids are minted. -/
structure DB where
  plans : List (String × PlanDoc)
  orders : List (String × OrderDoc)
  nextId : Nat
deriving Repr, DecidableEq

/-- The empty store. -/
def initDB : DB := ⟨[], [], 0⟩

/-- Mongo `find_one({"_id": k})`: first document whose id matches. -/
def findFirst (k : String) : List (String × α) → Option α
  | [] => none
  | (k', v) :: rest => if k' = k then some v else findFirst k rest

/-- Mongo `update_one({"_id": k}, {"$set": ...})`: rewrite the first document
whose id matches with `f`, leave everything else in place. -/
def updateFirst (k : String) (f : α → α) : List (String × α) → List (String × α)
  | [] => []
  | (k', v) :: rest =>
      if k' = k then (k', f v) :: rest else (k', v) :: updateFirst k f rest

/-- Hex digit characters as produced by ObjectId's lower-case hex form. -/
def hexChar (n : Nat) : Char :=
  if n < 10 then Char.ofNat (48 + n) else Char.ofNat (87 + n)

/-- Big-endian fixed-width hex digits of a natural number. -/
def hexDigits : Nat → Nat → List Char
  | 0, _ => []
  | k + 1, n => hexDigits k (n / 16) ++ [hexChar (n % 16)]

/-- The canonical 24-character hex string of the `n`-th store-minted
ObjectId. -/
def objectIdOfNat (n : Nat) : String := ⟨hexDigits 24 n⟩

/-- A character bson's `ObjectId` accepts in the 24-character hex form. -/
def isHexDigitChar (c : Char) : Bool :=
  (('0' ≤ c && c ≤ '9') || ('a' ≤ c && c ≤ 'f') || ('A' ≤ c && c ≤ 'F'))

/-- Whether `ObjectId(s)` succeeds on a string: 24 hex characters. -/
def isValidObjectId (s : String) : Bool :=
  s.data.length == 24 && s.data.all isHexDigitChar

/-- Python's `s.lower()` / ObjectId canonicalisation of hex case. -/
def strToLower (s : String) : String := ⟨s.data.map Char.toLower⟩

/-- Python's `s.upper()`. -/
def strToUpper (s : String) : String := ⟨s.data.map Char.toUpper⟩

/-- Python's `s[-n:]`: the last `n` characters (all of `s` if shorter). -/
def strTakeRight (s : String) (n : Nat) : String :=
  ⟨s.data.drop (s.data.length - n)⟩

/-- Helper `main.oid`: parse an id string, raising 400 on a malformed one.  A
successful parse is returned in canonical lower-case hex form, which is
the form under which documents are stored and matched. -/
def oid (s : String) : Except Err String :=
  if isValidObjectId s then Except.ok (strToLower s)
  else Except.error ⟨400, "Invalid ID format"⟩

/-- The first default plan document seeded by `ensure_default_plans`. -/
def essentialPlan (now : Nat) : PlanDoc :=
  { name := "Essential Will"
    description := "A legally valid simple Will for a single person."
    price := 79
    features := ["Legally valid simple Will", "Appointment of executors",
                 "Basic gifts and bequests"]
    created_at := now, updated_at := now }

/-- The second default plan document seeded by `ensure_default_plans`. -/
def couplesPlan (now : Nat) : PlanDoc :=
  { name := "Couples Will"
    description := "Mirror Wills for couples with aligned wishes."
    price := 129
    features := ["Two matching Wills", "Guardians for children",
                 "Replacement executors"]
    created_at := now, updated_at := now }

/-- The third default plan document seeded by `ensure_default_plans`. -/
def premiumPlan (now : Nat) : PlanDoc :=
  { name := "Premium Estate Plan"
    description := "Comprehensive Will with additional estate planning guidance."
    price := 199
    features := ["Complex gifts and trusts", "Digital asset wishes",
                 "One review session"]
    created_at := now, updated_at := now }

/-- The three default plan documents seeded by `ensure_default_plans`,
with `created_at` / `updated_at` stamped `now`. -/
def defaultPlans (now : Nat) : List PlanDoc :=
  [essentialPlan now, couplesPlan now, premiumPlan now]

/-- Mongo `insert_many`: the store assigns consecutive fresh ids to a batch. -/
def assignIds (start : Nat) : List α → List (String × α)
  | [] => []
  | d :: ds => (objectIdOfNat start, d) :: assignIds (start + 1) ds

/-- Seeder `main.ensure_default_plans`: seed the three defaults when the plan
collection is empty, then return every plan document. -/
def ensure_default_plans (dbSt : DB) (now : Nat) : DB × List (String × PlanDoc) :=
  if dbSt.plans.isEmpty then
    let db2 : DB :=
      { dbSt with
          plans := dbSt.plans ++ assignIds dbSt.nextId (defaultPlans now)
          nextId := dbSt.nextId + (defaultPlans now).length }
    (db2, db2.plans)
  else
    (dbSt, dbSt.plans)

/-- A plan record as returned over HTTP: `_id` replaced by a string `id`. -/
structure PlanOut where
  id : String
  doc : PlanDoc
deriving Repr, DecidableEq

/-- An order record as returned over HTTP: `_id` replaced by a string `id`. -/
structure OrderOut where
  id : String
  doc : OrderDoc
deriving Repr, DecidableEq

/-- Endpoint `GET /api/plans` (`main.list_plans`). -/
def list_plans (dbSt : DB) (now : Nat) : DB × List PlanOut :=
  let seeded := ensure_default_plans dbSt now
  (seeded.1, seeded.2.map (fun e => ⟨e.1, e.2⟩))

/-- The `OrderSchema(...)` constructed by `main.create_order`: the plan
snapshot comes from the looked-up plan document, the rest from the
request body; the pydantic defaults give `status="created"` and no
payment reference.  The pydantic model carries no timestamps; the store
stamps `created_at` / `updated_at` on insertion, so they are zero here. -/
def newOrderDoc (k : String) (plan_doc : PlanDoc) (body : CreateOrderBody) : OrderDoc :=
  { plan_id := k
    plan_name := plan_doc.name
    plan_price := plan_doc.price
    first_name := body.first_name
    last_name := body.last_name
    email := body.email
    phone := body.phone
    address_line1 := body.address_line1
    address_line2 := body.address_line2
    city := body.city
    state := body.state
    postal_code := body.postal_code
    country := body.country
    notes := body.notes
    status := "created"
    payment_reference := none
    total := plan_doc.price
    created_at := 0, updated_at := 0 }

/-- Modelled from the spec: `database.create_document` (from the absent
`database.py`) inserts the serialized model into the named collection,
the store stamping identity and the created/updated timestamps, and
returns the new id as a string. -/
def create_document_order (dbSt : DB) (now : Nat) (order : OrderDoc) :
    DB × String :=
  let newId := objectIdOfNat dbSt.nextId
  let stamped := { order with created_at := now, updated_at := now }
  ({ dbSt with orders := (newId, stamped) :: dbSt.orders, nextId := dbSt.nextId + 1 },
   newId)

/-- Endpoint `POST /api/orders` (`main.create_order`). -/
def create_order (dbSt : DB) (now : Nat) (body : CreateOrderBody) :
    DB × Except Err OrderOut :=
  match oid body.plan_id with
  | Except.error e => (dbSt, Except.error e)
  | Except.ok k =>
    match findFirst k dbSt.plans with
    | none => (dbSt, Except.error ⟨404, "Plan not found"⟩)
    | some plan_doc =>
      let inserted := create_document_order dbSt now (newOrderDoc k plan_doc body)
      match findFirst inserted.2 inserted.1.orders with
      | some created => (inserted.1, Except.ok ⟨inserted.2, created⟩)
      | none => (inserted.1, Except.error ⟨500, "Insert failed"⟩)

/-- Endpoint `GET /api/orders/{order_id}` (`main.get_order`); reads no state. -/
def get_order (dbSt : DB) (order_id : String) : Except Err OrderOut :=
  match oid order_id with
  | Except.error e => Except.error e
  | Except.ok k =>
    match findFirst k dbSt.orders with
    | none => Except.error ⟨404, "Order not found"⟩
    | some doc => Except.ok ⟨k, doc⟩

/-- The mock payment reference of `main.pay_order`:
`f"PMT-{order_id[-6:].upper()}-{int(datetime.utcnow().timestamp())}"`. -/
def payRef (order_id : String) (now : Nat) : String :=
  "PMT-" ++ strToUpper (strTakeRight order_id 6) ++ "-" ++ toString now

/-- The `$set` document applied by `main.pay_order`. -/
def setPaid (order_id : String) (now : Nat) (o : OrderDoc) : OrderDoc :=
  { o with
      status := "paid"
      payment_reference := some (payRef order_id now)
      updated_at := now }

/-- Endpoint `POST /api/orders/{order_id}/pay` (`main.pay_order`). -/
def pay_order (dbSt : DB) (now : Nat) (order_id : String) (_body : PaymentBody) :
    DB × Except Err OrderOut :=
  match oid order_id with
  | Except.error e => (dbSt, Except.error e)
  | Except.ok k =>
    match findFirst k dbSt.orders with
    | none => (dbSt, Except.error ⟨404, "Order not found"⟩)
    | some _ =>
      let db2 : DB :=
        { dbSt with orders := updateFirst k (setPaid order_id now) dbSt.orders }
      match findFirst k db2.orders with
      | some updated => (db2, Except.ok ⟨k, updated⟩)
      | none => (db2, Except.error ⟨500, "Update failed"⟩)

/-- One observable state transition of the system: each HTTP operation,
at an arbitrary wall-clock time and with an arbitrary request. -/
inductive Step : DB → DB → Prop
  | listPlans (dbSt : DB) (now : Nat) : Step dbSt (list_plans dbSt now).1
  | createOrder (dbSt : DB) (now : Nat) (body : CreateOrderBody) :
      Step dbSt (create_order dbSt now body).1
  | getOrder (dbSt : DB) (order_id : String) : Step dbSt dbSt
  | payOrder (dbSt : DB) (now : Nat) (order_id : String) (body : PaymentBody) :
      Step dbSt (pay_order dbSt now order_id body).1

/-- States reachable from the empty store by the system's operations. -/
inductive Reachable : DB → Prop
  | init : Reachable initDB
  | step {d d' : DB} : Reachable d → Step d d' → Reachable d'

/-- An order document's status is one of the two values any operation
ever writes. -/
def statusCreatedOrPaid (o : OrderDoc) : Prop :=
  o.status = "created" ∨ o.status = "paid"

/-- Every stored order of a state has status `"created"` or `"paid"`. -/
def ordersStatusOk (d : DB) : Prop :=
  ∀ e ∈ d.orders, statusCreatedOrPaid e.2

/-- Iterate `list_plans` once per element of the clock list `ts`. -/
def listPlansN (d : DB) : List Nat → DB
  | [] => d
  | t :: ts => listPlansN (list_plans d t).1 ts

/-- A concrete well-formed order-creation request against the first
seeded plan (the spec's worked example: Jane Doe buys "Essential Will"). -/
def janeBody : CreateOrderBody :=
  { plan_id := objectIdOfNat 0
    first_name := "Jane"
    last_name := "Doe"
    email := "jane.doe@example.com"
    address_line1 := "1 High Street"
    city := "London"
    postal_code := "W1A 1AA"
    country := "United Kingdom" }

/-- Request `janeBody` with a malformed plan id. -/
def badIdBody : CreateOrderBody := { janeBody with plan_id := "not-an-object-id" }

/-- Request `janeBody` with a well-formed plan id that resolves to no plan. -/
def missingIdBody : CreateOrderBody := { janeBody with plan_id := objectIdOfNat 99 }

/-- The store after one `list_plans` call on the empty store at time 5. -/
def dbSeeded : DB := (list_plans initDB 5).1

/-- Store `dbSeeded` after `create_order` for `janeBody` at time 7. -/
def dbWithOrder : DB := (create_order dbSeeded 7 janeBody).1

/-- The id the store assigns to Jane's order inside `dbWithOrder`. -/
def janeOrderId : String := objectIdOfNat 3

/-- The order document stored for Jane inside `dbWithOrder`. -/
def janeOrderDoc : OrderDoc :=
  { newOrderDoc (objectIdOfNat 0) (essentialPlan 5) janeBody with
      created_at := 7, updated_at := 7 }

/-! ### Association-list lemmas -/

theorem findFirst_cons_self {α : Type} (k : String) (v : α) (l : List (String × α)) :
    findFirst k ((k, v) :: l) = some v := by
  simp [findFirst]

theorem findFirst_updateFirst_self {α : Type} (k : String) (f : α → α)
    (l : List (String × α)) :
    findFirst k (updateFirst k f l) = (findFirst k l).map f := by
  induction l with
  | nil => simp [findFirst, updateFirst]
  | cons e rest ih =>
    obtain ⟨k', v⟩ := e
    by_cases h : k' = k
    · subst h; simp [findFirst, updateFirst]
    · simp [findFirst, updateFirst, h, ih]

theorem mem_updateFirst_of_ne {α : Type} {k : String} {f : α → α}
    {l : List (String × α)} {e : String × α} (he : e ∈ l) (hne : e.1 ≠ k) :
    e ∈ updateFirst k f l := by
  induction l with
  | nil => cases he
  | cons e' rest ih =>
    obtain ⟨k', v⟩ := e'
    rcases List.mem_cons.mp he with rfl | hmem
    · by_cases h : k' = k
      · exact absurd h hne
      · simp [updateFirst, h]
    · by_cases h : k' = k
      · simp only [updateFirst, if_pos h]
        exact List.mem_cons_of_mem _ hmem
      · simp only [updateFirst, if_neg h]
        exact List.mem_cons_of_mem _ (ih hmem)

theorem findFirst_updateFirst_ne {α : Type} {k k' : String} (hne : k ≠ k')
    (f : α → α) (l : List (String × α)) :
    findFirst k (updateFirst k' f l) = findFirst k l := by
  induction l with
  | nil => rfl
  | cons e rest ih =>
    obtain ⟨k₀, v⟩ := e
    by_cases h : k₀ = k'
    · subst h
      simp [findFirst, updateFirst, Ne.symm hne]
    · by_cases h2 : k₀ = k
      · subst h2; simp [findFirst, updateFirst, h]
      · simp [findFirst, updateFirst, h, h2, ih]

theorem updateFirst_map_fst {α : Type} (k : String) (f : α → α)
    (l : List (String × α)) :
    (updateFirst k f l).map Prod.fst = l.map Prod.fst := by
  induction l with
  | nil => rfl
  | cons e rest ih =>
    obtain ⟨k', v⟩ := e
    by_cases h : k' = k <;> simp [updateFirst, h, ih]

theorem forall_mem_updateFirst {α : Type} {P : α → Prop} {k : String} {f : α → α}
    {l : List (String × α)} (h1 : ∀ e ∈ l, P e.2) (h2 : ∀ v, P v → P (f v)) :
    ∀ e ∈ updateFirst k f l, P e.2 := by
  induction l with
  | nil => intro e he; cases he
  | cons e' rest ih =>
    obtain ⟨k', v⟩ := e'
    intro e he
    by_cases h : k' = k
    · simp only [updateFirst, if_pos h] at he
      rcases List.mem_cons.mp he with rfl | hmem
      · exact h2 v (h1 (k', v) (List.mem_cons_self _ _))
      · exact h1 e (List.mem_cons_of_mem _ hmem)
    · simp only [updateFirst, if_neg h] at he
      rcases List.mem_cons.mp he with rfl | hmem
      · exact h1 (k', v) (List.mem_cons_self _ _)
      · exact ih (fun e₀ he₀ => h1 e₀ (List.mem_cons_of_mem _ he₀)) e hmem

/-! ### Operation characterizations -/

theorem oid_ok_length {s k : String} (h : oid s = Except.ok k) :
    s.data.length = 24 := by
  simp only [oid] at h
  split at h
  · rename_i hv
    simp only [isValidObjectId, Bool.and_eq_true, beq_iff_eq, List.all_eq_true] at hv
    exact hv.1
  · cases h

theorem create_order_eq (dbSt : DB) (now : Nat) (body : CreateOrderBody)
    (k : String) (plan : PlanDoc)
    (hk : oid body.plan_id = Except.ok k)
    (hp : findFirst k dbSt.plans = some plan) :
    create_order dbSt now body =
      ({ dbSt with
           orders := (objectIdOfNat dbSt.nextId,
             { newOrderDoc k plan body with created_at := now, updated_at := now })
             :: dbSt.orders
           nextId := dbSt.nextId + 1 },
       Except.ok ⟨objectIdOfNat dbSt.nextId,
         { newOrderDoc k plan body with created_at := now, updated_at := now }⟩) := by
  simp only [create_order, hk, hp, create_document_order, findFirst_cons_self]

theorem pay_order_eq (dbSt : DB) (now : Nat) (order_id : String) (pb : PaymentBody)
    (k : String) (doc : OrderDoc)
    (hk : oid order_id = Except.ok k)
    (hf : findFirst k dbSt.orders = some doc) :
    pay_order dbSt now order_id pb =
      ({ dbSt with orders := updateFirst k (setPaid order_id now) dbSt.orders },
       Except.ok ⟨k, setPaid order_id now doc⟩) := by
  simp only [pay_order, hk, hf, findFirst_updateFirst_self, Option.map_some']

theorem list_plans_of_empty (dbSt : DB) (now : Nat) (h : dbSt.plans = []) :
    (list_plans dbSt now).1 =
      { dbSt with
          plans := assignIds dbSt.nextId (defaultPlans now)
          nextId := dbSt.nextId + 3 } := by
  simp [list_plans, ensure_default_plans, h, defaultPlans, assignIds]

theorem list_plans_of_nonempty (dbSt : DB) (now : Nat) (h : dbSt.plans ≠ []) :
    list_plans dbSt now = (dbSt, dbSt.plans.map (fun e => ⟨e.1, e.2⟩)) := by
  simp [list_plans, ensure_default_plans, h]

theorem listPlansN_stable (d : DB) (ts : List Nat) (h : d.plans ≠ []) :
    listPlansN d ts = d := by
  induction ts with
  | nil => rfl
  | cons t ts ih =>
    have hstep : (list_plans d t).1 = d := by
      rw [list_plans_of_nonempty d t h]
    simp only [listPlansN, hstep, ih]

theorem hexChar_props (m : Nat) (h : m < 16) :
    isHexDigitChar (hexChar m) = true ∧ Char.toLower (hexChar m) = hexChar m := by
  interval_cases m <;> exact ⟨by decide, by decide⟩

theorem hexDigits_length (k n : Nat) : (hexDigits k n).length = k := by
  induction k generalizing n with
  | zero => rfl
  | succ k ih => simp [hexDigits, ih]

theorem hexDigits_props (k n : Nat) :
    ∀ c ∈ hexDigits k n, isHexDigitChar c = true ∧ Char.toLower c = c := by
  induction k generalizing n with
  | zero => intro c hc; cases hc
  | succ k ih =>
    intro c hc
    simp only [hexDigits, List.mem_append, List.mem_singleton] at hc
    rcases hc with hc | rfl
    · exact ih _ c hc
    · exact hexChar_props _ (Nat.mod_lt _ (by decide))

theorem oid_objectIdOfNat (n : Nat) :
    oid (objectIdOfNat n) = Except.ok (objectIdOfNat n) := by
  have hval : isValidObjectId (objectIdOfNat n) = true := by
    simp only [isValidObjectId, objectIdOfNat, Bool.and_eq_true, beq_iff_eq,
      List.all_eq_true]
    exact ⟨hexDigits_length 24 n, fun c hc => (hexDigits_props 24 n c hc).1⟩
  have hlow : strToLower (objectIdOfNat n) = objectIdOfNat n := by
    have hmap : (hexDigits 24 n).map Char.toLower = hexDigits 24 n := by
      rw [List.map_congr_left (fun c hc => (hexDigits_props 24 n c hc).2)]
      simp
    simp only [strToLower, objectIdOfNat]
    rw [hmap]
  rw [oid, if_pos hval, hlow]

theorem payRef_ne_empty (order_id : String) (now : Nat) :
    payRef order_id now ≠ "" := by
  intro hc
  have hlen := congrArg String.length hc
  rw [payRef] at hlen
  simp only [String.length_append] at hlen
  have h4 : ("PMT-" : String).length = 4 := rfl
  have h0 : ("" : String).length = 0 := rfl
  omega

theorem list_plans_preserves_orders (d : DB) (t : Nat) :
    (list_plans d t).1.orders = d.orders := by
  unfold list_plans ensure_default_plans
  split <;> rfl

theorem create_order_preserves_orders (d : DB) (t : Nat) (body : CreateOrderBody) :
    ∀ e ∈ d.orders, e ∈ (create_order d t body).1.orders := by
  intro e he
  cases hoid : oid body.plan_id with
  | error err => simp only [create_order, hoid]; exact he
  | ok k =>
    cases hfp : findFirst k d.plans with
    | none => simp only [create_order, hoid, hfp]; exact he
    | some plan =>
      rw [create_order_eq d t body k plan hoid hfp]
      exact List.mem_cons_of_mem _ he

theorem pay_order_preserves_order_ids (d : DB) (t : Nat) (s : String)
    (pb : PaymentBody) :
    (pay_order d t s pb).1.orders.map Prod.fst = d.orders.map Prod.fst := by
  cases hoid : oid s with
  | error err => simp only [pay_order, hoid]
  | ok k =>
    cases hfo : findFirst k d.orders with
    | none => simp only [pay_order, hoid, hfo]
    | some doc =>
      rw [pay_order_eq d t s pb k doc hoid hfo]
      exact updateFirst_map_fst k _ d.orders

theorem pay_order_orders (dbSt : DB) (now : Nat) (order_id : String)
    (pb : PaymentBody) (k : String) (doc : OrderDoc)
    (hk : oid order_id = Except.ok k)
    (hf : findFirst k dbSt.orders = some doc) :
    (pay_order dbSt now order_id pb).1.orders
      = updateFirst k (setPaid order_id now) dbSt.orders := by
  rw [pay_order_eq dbSt now order_id pb k doc hk hf]

theorem pay_preserves_snapshot (d : DB) (t : Nat) (s : String) (pb : PaymentBody)
    (kk : String) (dd dd' : OrderDoc)
    (h1 : findFirst kk d.orders = some dd)
    (h2 : findFirst kk (pay_order d t s pb).1.orders = some dd') :
    dd'.plan_name = dd.plan_name ∧ dd'.plan_price = dd.plan_price ∧
      dd'.total = dd.total := by
  cases hoid : oid s with
  | error err =>
    simp only [pay_order, hoid] at h2
    rw [h1] at h2
    obtain rfl := Option.some.inj h2
    exact ⟨rfl, rfl, rfl⟩
  | ok k2 =>
    cases hfo : findFirst k2 d.orders with
    | none =>
      simp only [pay_order, hoid, hfo] at h2
      rw [h1] at h2
      obtain rfl := Option.some.inj h2
      exact ⟨rfl, rfl, rfl⟩
    | some doc0 =>
      rw [pay_order_orders d t s pb k2 doc0 hoid hfo] at h2
      by_cases hkk : kk = k2
      · subst hkk
        rw [findFirst_updateFirst_self, h1, Option.map_some'] at h2
        obtain rfl := Option.some.inj h2
        exact ⟨rfl, rfl, rfl⟩
      · rw [findFirst_updateFirst_ne hkk, h1] at h2
        obtain rfl := Option.some.inj h2
        exact ⟨rfl, rfl, rfl⟩

/-! ### Claim theorems -/

/-- C1: for every stored plan that the request's plan id resolves to,
`create_order` builds and persists an order whose `plan_name` equals the
plan's name, whose `plan_price` and `total` both equal the plan's price
at creation time, and whose status is `"created"`; the snapshot fields
of the persisted order are never re-read from the plan after creation:
`pay_order`, the only mutating operation, leaves them unchanged. -/
theorem C1_create_order_snapshot (dbSt : DB) (now : Nat) (body : CreateOrderBody)
    (k : String) (plan : PlanDoc)
    (hk : oid body.plan_id = Except.ok k)
    (hp : findFirst k dbSt.plans = some plan) :
    ∃ res : OrderOut,
      (create_order dbSt now body).2 = Except.ok res ∧
      res.doc.plan_name = plan.name ∧
      res.doc.plan_price = plan.price ∧
      res.doc.total = plan.price ∧
      res.doc.status = "created" ∧
      (create_order dbSt now body).1.orders = (res.id, res.doc) :: dbSt.orders ∧
      (∀ d t s pb kk dd dd',
        findFirst kk (d : DB).orders = some dd →
        findFirst kk (pay_order d t s pb).1.orders = some dd' →
        dd'.plan_name = dd.plan_name ∧ dd'.plan_price = dd.plan_price ∧
          dd'.total = dd.total) := by
  have hco := create_order_eq dbSt now body k plan hk hp
  refine ⟨⟨objectIdOfNat dbSt.nextId,
      { newOrderDoc k plan body with created_at := now, updated_at := now }⟩,
    ?_, rfl, rfl, rfl, rfl, ?_, ?_⟩
  · rw [hco]
  · rw [hco]
  · intro d t s pb kk dd dd' h1 h2
    exact pay_preserves_snapshot d t s pb kk dd dd' h1 h2

/-- Witness for C1 at the spec's worked example: Jane Doe buys
"Essential Will" in the freshly seeded store. -/
theorem C1_witness :
    ∃ res : OrderOut,
      (create_order dbSeeded 7 janeBody).2 = Except.ok res ∧
      res.doc.plan_name = (essentialPlan 5).name ∧
      res.doc.plan_price = (essentialPlan 5).price ∧
      res.doc.total = (essentialPlan 5).price ∧
      res.doc.status = "created" ∧
      (create_order dbSeeded 7 janeBody).1.orders = (res.id, res.doc) :: dbSeeded.orders ∧
      (∀ d t s pb kk dd dd',
        findFirst kk (d : DB).orders = some dd →
        findFirst kk (pay_order d t s pb).1.orders = some dd' →
        dd'.plan_name = dd.plan_name ∧ dd'.plan_price = dd.plan_price ∧
          dd'.total = dd.total) :=
  C1_create_order_snapshot dbSeeded 7 janeBody (objectIdOfNat 0) (essentialPlan 5)
    rfl rfl

/-- C2: seeding is idempotent: `list_plans` on an empty plan store
inserts exactly the three fixed default plans (Essential/Couples/Premium)
before reading, every call on a non-empty store inserts nothing, the
plan count stabilizes at 3 over any non-empty sequence of calls, and all
plan records come back with string ids. -/
theorem C2_seeding_idempotent (d : DB) (now : Nat) (ts : List Nat)
    (h : d.plans = []) (hts : ts ≠ []) :
    ((list_plans d now).1.plans.map (fun e => (e.2.name, e.2.price)) =
      [("Essential Will", (79 : ℚ)), ("Couples Will", (129 : ℚ)),
       ("Premium Estate Plan", (199 : ℚ))]) ∧
    (list_plans d now).1.plans.length = 3 ∧
    (∀ d' now', (d' : DB).plans ≠ [] →
      list_plans d' now' = (d', d'.plans.map (fun e => ⟨e.1, e.2⟩))) ∧
    (listPlansN d ts).plans.length = 3 ∧
    (list_plans d now).2 = (list_plans d now).1.plans.map (fun e => ⟨e.1, e.2⟩) := by
  have h1 := list_plans_of_empty d now h
  refine ⟨?_, ?_, ?_, ?_, ?_⟩
  · rw [h1]
    simp [assignIds, defaultPlans, essentialPlan, couplesPlan, premiumPlan]
  · rw [h1]
    simp [assignIds, defaultPlans]
  · exact fun d' now' h' => list_plans_of_nonempty d' now' h'
  · obtain ⟨t, ts', rfl⟩ := List.exists_cons_of_ne_nil hts
    have h2 := list_plans_of_empty d t h
    have hne : (list_plans d t).1.plans ≠ [] := by
      rw [h2]
      simp [assignIds, defaultPlans]
    show (listPlansN (list_plans d t).1 ts').plans.length = 3
    rw [listPlansN_stable _ ts' hne, h2]
    simp [assignIds, defaultPlans]
  · simp [list_plans, ensure_default_plans, h]

/-- Witness for C2: two calls on the empty store. -/
theorem C2_witness :
    ((list_plans initDB 5).1.plans.map (fun e => (e.2.name, e.2.price)) =
      [("Essential Will", (79 : ℚ)), ("Couples Will", (129 : ℚ)),
       ("Premium Estate Plan", (199 : ℚ))]) ∧
    (list_plans initDB 5).1.plans.length = 3 ∧
    (∀ d' now', (d' : DB).plans ≠ [] →
      list_plans d' now' = (d', d'.plans.map (fun e => ⟨e.1, e.2⟩))) ∧
    (listPlansN initDB [0, 1]).plans.length = 3 ∧
    (list_plans initDB 5).2 = (list_plans initDB 5).1.plans.map (fun e => ⟨e.1, e.2⟩) :=
  C2_seeding_idempotent initDB 5 [0, 1] rfl (by simp)

/-- C6: `create_order` fails with 404 on a well-formed plan id that
resolves to no plan and with 400 on a malformed plan id; in either
failure case the store is returned unchanged, so no order is persisted. -/
theorem C6_create_order_errors (dbSt : DB) (now : Nat) (body : CreateOrderBody) :
    (isValidObjectId body.plan_id = false →
      create_order dbSt now body = (dbSt, Except.error ⟨400, "Invalid ID format"⟩)) ∧
    (∀ k, oid body.plan_id = Except.ok k → findFirst k dbSt.plans = none →
      create_order dbSt now body = (dbSt, Except.error ⟨404, "Plan not found"⟩)) := by
  constructor
  · intro hbad
    have hoid : oid body.plan_id = Except.error ⟨400, "Invalid ID format"⟩ := by
      simp [oid, hbad]
    simp only [create_order, hoid]
  · intro k hk hnone
    simp only [create_order, hk, hnone]

/-- Witness for C6: a malformed plan id and a fresh well-formed one,
both against the empty store. -/
theorem C6_witness :
    (create_order initDB 0 badIdBody
      = (initDB, Except.error ⟨400, "Invalid ID format"⟩)) ∧
    (create_order initDB 0 missingIdBody
      = (initDB, Except.error ⟨404, "Plan not found"⟩)) :=
  ⟨(C6_create_order_errors initDB 0 badIdBody).1 (by decide),
   (C6_create_order_errors initDB 0 missingIdBody).2 (objectIdOfNat 99) rfl rfl⟩

/-- C7: `get_order` fails with 400 on a malformed order id, with 404 on
a well-formed id for which no order is stored, and otherwise returns the
stored record with its string id. -/
theorem C7_get_order_errors (dbSt : DB) (order_id : String) :
    (isValidObjectId order_id = false →
      get_order dbSt order_id = Except.error ⟨400, "Invalid ID format"⟩) ∧
    (∀ k, oid order_id = Except.ok k → findFirst k dbSt.orders = none →
      get_order dbSt order_id = Except.error ⟨404, "Order not found"⟩) ∧
    (∀ k doc, oid order_id = Except.ok k → findFirst k dbSt.orders = some doc →
      get_order dbSt order_id = Except.ok ⟨k, doc⟩) := by
  refine ⟨?_, ?_, ?_⟩
  · intro hbad
    have hoid : oid order_id = Except.error ⟨400, "Invalid ID format"⟩ := by
      simp [oid, hbad]
    simp only [get_order, hoid]
  · intro k hk hnone
    simp only [get_order, hk, hnone]
  · intro k doc hk hsome
    simp only [get_order, hk, hsome]

/-- Witness for C7: a malformed id, an absent well-formed id, and
Jane's stored order. -/
theorem C7_witness :
    (get_order initDB "xyz" = Except.error ⟨400, "Invalid ID format"⟩) ∧
    (get_order initDB (objectIdOfNat 7) = Except.error ⟨404, "Order not found"⟩) ∧
    (get_order dbWithOrder janeOrderId = Except.ok ⟨janeOrderId, janeOrderDoc⟩) :=
  ⟨(C7_get_order_errors initDB "xyz").1 (by decide),
   (C7_get_order_errors initDB (objectIdOfNat 7)).2.1 (objectIdOfNat 7) rfl rfl,
   (C7_get_order_errors dbWithOrder janeOrderId).2.2 janeOrderId janeOrderDoc rfl rfl⟩

/-- C3: for every order id that resolves to an existing order,
`pay_order` stores the payment reference `"PMT-"` + last 6 characters of
the order id upper-cased + `"-"` + the current Unix timestamp, which
therefore matches the pattern `PMT-<6 chars>-<digits>`. -/
theorem C3_pay_order_reference (dbSt : DB) (now : Nat) (order_id : String)
    (pb : PaymentBody) (k : String) (doc : OrderDoc)
    (hk : oid order_id = Except.ok k)
    (hf : findFirst k dbSt.orders = some doc) :
    ∃ res : OrderOut,
      (pay_order dbSt now order_id pb).2 = Except.ok res ∧
      res.doc.payment_reference =
        some ("PMT-" ++ strToUpper (strTakeRight order_id 6) ++ "-" ++ toString now) ∧
      (∃ mid : String, ∃ t : Nat,
        res.doc.payment_reference = some ("PMT-" ++ mid ++ "-" ++ toString t) ∧
        mid.length = 6) := by
  rw [pay_order_eq dbSt now order_id pb k doc hk hf]
  refine ⟨_, rfl, rfl, strToUpper (strTakeRight order_id 6), now, rfl, ?_⟩
  have h24 : order_id.data.length = 24 := oid_ok_length hk
  show (strToUpper (strTakeRight order_id 6)).length = 6
  simp only [strToUpper, strTakeRight, String.length, List.length_map,
    List.length_drop, h24]

/-- Witness for C3: paying Jane's order at time 11 yields the reference
`PMT-000003-11`. -/
theorem C3_witness :
    ∃ res : OrderOut,
      (pay_order dbWithOrder 11 janeOrderId ⟨"card", none⟩).2 = Except.ok res ∧
      res.doc.payment_reference =
        some ("PMT-" ++ strToUpper (strTakeRight janeOrderId 6) ++ "-" ++ toString 11) ∧
      (∃ mid : String, ∃ t : Nat,
        res.doc.payment_reference = some ("PMT-" ++ mid ++ "-" ++ toString t) ∧
        mid.length = 6) :=
  C3_pay_order_reference dbWithOrder 11 janeOrderId ⟨"card", none⟩ janeOrderId
    janeOrderDoc rfl rfl

/-- C4: for every existing order with status `"created"`, `pay_order`
succeeds, sets the status to `"paid"`, stores a non-empty
`payment_reference` and the new `updated_at`, and returns the updated
record. -/
theorem C4_pay_order_succeeds (dbSt : DB) (now : Nat) (order_id : String)
    (pb : PaymentBody) (k : String) (doc : OrderDoc)
    (hk : oid order_id = Except.ok k)
    (hf : findFirst k dbSt.orders = some doc)
    (hs : doc.status = "created") :
    ∃ res : OrderOut,
      (pay_order dbSt now order_id pb).2 = Except.ok res ∧
      res.doc.status = "paid" ∧
      res.doc.payment_reference = some (payRef order_id now) ∧
      payRef order_id now ≠ "" ∧
      res.doc.updated_at = now ∧
      findFirst k (pay_order dbSt now order_id pb).1.orders = some res.doc := by
  rw [pay_order_eq dbSt now order_id pb k doc hk hf]
  refine ⟨_, rfl, rfl, rfl, payRef_ne_empty order_id now, rfl, ?_⟩
  show findFirst k (updateFirst k (setPaid order_id now) dbSt.orders)
      = some (setPaid order_id now doc)
  rw [findFirst_updateFirst_self, hf, Option.map_some']

/-- Witness for C4: paying Jane's freshly created order. -/
theorem C4_witness :
    ∃ res : OrderOut,
      (pay_order dbWithOrder 11 janeOrderId ⟨"card", none⟩).2 = Except.ok res ∧
      res.doc.status = "paid" ∧
      res.doc.payment_reference = some (payRef janeOrderId 11) ∧
      payRef janeOrderId 11 ≠ "" ∧
      res.doc.updated_at = 11 ∧
      findFirst janeOrderId
          (pay_order dbWithOrder 11 janeOrderId ⟨"card", none⟩).1.orders
        = some res.doc :=
  C4_pay_order_succeeds dbWithOrder 11 janeOrderId ⟨"card", none⟩ janeOrderId
    janeOrderDoc rfl rfl rfl

/-- C5: `pay_order` never checks for an already-paid status: a second
call on the same order also succeeds and overwrites the stored
`payment_reference` and `updated_at` with the second call's values. -/
theorem C5_pay_order_overwrites (dbSt : DB) (t1 t2 : Nat) (order_id : String)
    (pb1 pb2 : PaymentBody) (k : String) (doc : OrderDoc)
    (hk : oid order_id = Except.ok k)
    (hf : findFirst k dbSt.orders = some doc) :
    ∃ res1 res2 : OrderOut,
      (pay_order dbSt t1 order_id pb1).2 = Except.ok res1 ∧
      res1.doc.payment_reference = some (payRef order_id t1) ∧
      res1.doc.updated_at = t1 ∧
      (pay_order (pay_order dbSt t1 order_id pb1).1 t2 order_id pb2).2
        = Except.ok res2 ∧
      res2.doc.payment_reference = some (payRef order_id t2) ∧
      res2.doc.updated_at = t2 ∧
      findFirst k
          (pay_order (pay_order dbSt t1 order_id pb1).1 t2 order_id pb2).1.orders
        = some res2.doc := by
  have h1 := pay_order_eq dbSt t1 order_id pb1 k doc hk hf
  have hf1 : findFirst k (pay_order dbSt t1 order_id pb1).1.orders
      = some (setPaid order_id t1 doc) := by
    rw [h1]
    show findFirst k (updateFirst k (setPaid order_id t1) dbSt.orders)
        = some (setPaid order_id t1 doc)
    rw [findFirst_updateFirst_self, hf, Option.map_some']
  have h2 := pay_order_eq (pay_order dbSt t1 order_id pb1).1 t2 order_id pb2 k
    (setPaid order_id t1 doc) hk hf1
  refine ⟨⟨k, setPaid order_id t1 doc⟩,
          ⟨k, setPaid order_id t2 (setPaid order_id t1 doc)⟩,
          ?_, rfl, rfl, ?_, rfl, rfl, ?_⟩
  · rw [h1]
  · rw [h2]
  · rw [h2]
    show findFirst k
        (updateFirst k (setPaid order_id t2) (pay_order dbSt t1 order_id pb1).1.orders)
        = some (setPaid order_id t2 (setPaid order_id t1 doc))
    rw [findFirst_updateFirst_self, hf1, Option.map_some']

/-- Witness for C5: paying Jane's order at times 11 and then 13. -/
theorem C5_witness :
    ∃ res1 res2 : OrderOut,
      (pay_order dbWithOrder 11 janeOrderId ⟨"card", none⟩).2 = Except.ok res1 ∧
      res1.doc.payment_reference = some (payRef janeOrderId 11) ∧
      res1.doc.updated_at = 11 ∧
      (pay_order (pay_order dbWithOrder 11 janeOrderId ⟨"card", none⟩).1 13
          janeOrderId ⟨"paypal", some "tok"⟩).2 = Except.ok res2 ∧
      res2.doc.payment_reference = some (payRef janeOrderId 13) ∧
      res2.doc.updated_at = 13 ∧
      findFirst janeOrderId
          (pay_order (pay_order dbWithOrder 11 janeOrderId ⟨"card", none⟩).1 13
            janeOrderId ⟨"paypal", some "tok"⟩).1.orders
        = some res2.doc :=
  C5_pay_order_overwrites dbWithOrder 11 13 janeOrderId ⟨"card", none⟩
    ⟨"paypal", some "tok"⟩ janeOrderId janeOrderDoc rfl rfl

/-- C8: `pay_order` changes only `status`, `payment_reference` and
`updated_at` of the paid order: the plan collection and id counter are
untouched, the set of order ids is unchanged, every other order entry is
untouched, all other fields of the paid order are preserved; and no
operation of the system ever deletes an order. -/
theorem C8_pay_order_frame (dbSt : DB) (now : Nat) (order_id : String)
    (pb : PaymentBody) (k : String) (doc : OrderDoc)
    (hk : oid order_id = Except.ok k)
    (hf : findFirst k dbSt.orders = some doc) :
    (pay_order dbSt now order_id pb).1.plans = dbSt.plans ∧
    (pay_order dbSt now order_id pb).1.nextId = dbSt.nextId ∧
    (pay_order dbSt now order_id pb).1.orders.map Prod.fst
      = dbSt.orders.map Prod.fst ∧
    (∀ e ∈ dbSt.orders, e.1 ≠ k → e ∈ (pay_order dbSt now order_id pb).1.orders) ∧
    findFirst k (pay_order dbSt now order_id pb).1.orders
      = some (setPaid order_id now doc) ∧
    ((setPaid order_id now doc).status = "paid" ∧
     (setPaid order_id now doc).payment_reference = some (payRef order_id now) ∧
     (setPaid order_id now doc).updated_at = now) ∧
    ((setPaid order_id now doc).plan_id = doc.plan_id ∧
     (setPaid order_id now doc).plan_name = doc.plan_name ∧
     (setPaid order_id now doc).plan_price = doc.plan_price ∧
     (setPaid order_id now doc).first_name = doc.first_name ∧
     (setPaid order_id now doc).last_name = doc.last_name ∧
     (setPaid order_id now doc).email = doc.email ∧
     (setPaid order_id now doc).phone = doc.phone ∧
     (setPaid order_id now doc).address_line1 = doc.address_line1 ∧
     (setPaid order_id now doc).address_line2 = doc.address_line2 ∧
     (setPaid order_id now doc).city = doc.city ∧
     (setPaid order_id now doc).state = doc.state ∧
     (setPaid order_id now doc).postal_code = doc.postal_code ∧
     (setPaid order_id now doc).country = doc.country ∧
     (setPaid order_id now doc).notes = doc.notes ∧
     (setPaid order_id now doc).total = doc.total ∧
     (setPaid order_id now doc).created_at = doc.created_at) ∧
    (∀ d t body, ∀ e ∈ (d : DB).orders, e ∈ (create_order d t body).1.orders) ∧
    (∀ d t, (list_plans d t).1.orders = (d : DB).orders) ∧
    (∀ d t s pb', (pay_order d t s pb').1.orders.map Prod.fst
      = (d : DB).orders.map Prod.fst) := by
  have heq := pay_order_eq dbSt now order_id pb k doc hk hf
  have hords := pay_order_orders dbSt now order_id pb k doc hk hf
  refine ⟨?_, ?_, ?_, ?_, ?_,
    ⟨rfl, rfl, rfl⟩,
    ⟨rfl, rfl, rfl, rfl, rfl, rfl, rfl, rfl, rfl, rfl, rfl, rfl, rfl, rfl, rfl, rfl⟩,
    fun d t body => create_order_preserves_orders d t body,
    fun d t => list_plans_preserves_orders d t,
    fun d t s pb' => pay_order_preserves_order_ids d t s pb'⟩
  · rw [heq]
  · rw [heq]
  · rw [hords]
    exact updateFirst_map_fst k _ dbSt.orders
  · intro e he hne
    rw [hords]
    exact mem_updateFirst_of_ne he hne
  · rw [hords, findFirst_updateFirst_self, hf, Option.map_some']

/-- Witness for C8 at Jane's order. -/
theorem C8_witness :
    (pay_order dbWithOrder 11 janeOrderId ⟨"card", none⟩).1.plans
      = dbWithOrder.plans ∧
    (pay_order dbWithOrder 11 janeOrderId ⟨"card", none⟩).1.nextId
      = dbWithOrder.nextId ∧
    (pay_order dbWithOrder 11 janeOrderId ⟨"card", none⟩).1.orders.map Prod.fst
      = dbWithOrder.orders.map Prod.fst ∧
    (∀ e ∈ dbWithOrder.orders, e.1 ≠ janeOrderId →
      e ∈ (pay_order dbWithOrder 11 janeOrderId ⟨"card", none⟩).1.orders) ∧
    findFirst janeOrderId
        (pay_order dbWithOrder 11 janeOrderId ⟨"card", none⟩).1.orders
      = some (setPaid janeOrderId 11 janeOrderDoc) ∧
    ((setPaid janeOrderId 11 janeOrderDoc).status = "paid" ∧
     (setPaid janeOrderId 11 janeOrderDoc).payment_reference
       = some (payRef janeOrderId 11) ∧
     (setPaid janeOrderId 11 janeOrderDoc).updated_at = 11) ∧
    ((setPaid janeOrderId 11 janeOrderDoc).plan_id = janeOrderDoc.plan_id ∧
     (setPaid janeOrderId 11 janeOrderDoc).plan_name = janeOrderDoc.plan_name ∧
     (setPaid janeOrderId 11 janeOrderDoc).plan_price = janeOrderDoc.plan_price ∧
     (setPaid janeOrderId 11 janeOrderDoc).first_name = janeOrderDoc.first_name ∧
     (setPaid janeOrderId 11 janeOrderDoc).last_name = janeOrderDoc.last_name ∧
     (setPaid janeOrderId 11 janeOrderDoc).email = janeOrderDoc.email ∧
     (setPaid janeOrderId 11 janeOrderDoc).phone = janeOrderDoc.phone ∧
     (setPaid janeOrderId 11 janeOrderDoc).address_line1 = janeOrderDoc.address_line1 ∧
     (setPaid janeOrderId 11 janeOrderDoc).address_line2 = janeOrderDoc.address_line2 ∧
     (setPaid janeOrderId 11 janeOrderDoc).city = janeOrderDoc.city ∧
     (setPaid janeOrderId 11 janeOrderDoc).state = janeOrderDoc.state ∧
     (setPaid janeOrderId 11 janeOrderDoc).postal_code = janeOrderDoc.postal_code ∧
     (setPaid janeOrderId 11 janeOrderDoc).country = janeOrderDoc.country ∧
     (setPaid janeOrderId 11 janeOrderDoc).notes = janeOrderDoc.notes ∧
     (setPaid janeOrderId 11 janeOrderDoc).total = janeOrderDoc.total ∧
     (setPaid janeOrderId 11 janeOrderDoc).created_at = janeOrderDoc.created_at) ∧
    (∀ d t body, ∀ e ∈ (d : DB).orders, e ∈ (create_order d t body).1.orders) ∧
    (∀ d t, (list_plans d t).1.orders = (d : DB).orders) ∧
    (∀ d t s pb', (pay_order d t s pb').1.orders.map Prod.fst
      = (d : DB).orders.map Prod.fst) :=
  C8_pay_order_frame dbWithOrder 11 janeOrderId ⟨"card", none⟩ janeOrderId
    janeOrderDoc rfl rfl

/-- C9: in every state reachable by any sequence of the system's
operations from the empty store, every stored order has status
`"created"` or `"paid"`; no operation ever stores `"failed"` or
`"cancelled"`. -/
theorem C9_status_invariant (d : DB) (h : Reachable d) : ordersStatusOk d := by
  induction h with
  | init => intro e he; cases he
  | step hr hstep ih =>
    cases hstep with
    | listPlans t =>
      intro e he
      rw [list_plans_preserves_orders] at he
      exact ih e he
    | createOrder t body =>
      rename_i d0
      intro e he
      cases hoid : oid body.plan_id with
      | error err =>
        have hsame : (create_order d0 t body).1.orders = d0.orders := by
          simp only [create_order, hoid]
        rw [hsame] at he
        exact ih e he
      | ok kk =>
        cases hfp : findFirst kk d0.plans with
        | none =>
          have hsame : (create_order d0 t body).1.orders = d0.orders := by
            simp only [create_order, hoid, hfp]
          rw [hsame] at he
          exact ih e he
        | some plan =>
          have hords : (create_order d0 t body).1.orders
              = (objectIdOfNat d0.nextId,
                  { newOrderDoc kk plan body with created_at := t, updated_at := t })
                :: d0.orders := by
            rw [create_order_eq d0 t body kk plan hoid hfp]
          rw [hords] at he
          rcases List.mem_cons.mp he with rfl | hmem
          · exact Or.inl rfl
          · exact ih _ hmem
    | getOrder s =>
      exact ih
    | payOrder t s pb =>
      rename_i d0
      intro e he
      cases hoid : oid s with
      | error err =>
        have hsame : (pay_order d0 t s pb).1.orders = d0.orders := by
          simp only [pay_order, hoid]
        rw [hsame] at he
        exact ih e he
      | ok kk =>
        cases hfo : findFirst kk d0.orders with
        | none =>
          have hsame : (pay_order d0 t s pb).1.orders = d0.orders := by
            simp only [pay_order, hoid, hfo]
          rw [hsame] at he
          exact ih e he
        | some doc0 =>
          rw [pay_order_orders d0 t s pb kk doc0 hoid hfo] at he
          exact forall_mem_updateFirst ih (fun v _ => Or.inr rfl) e he

/-- Witness for C9: the state after seeding, creating Jane's order and
paying it is reachable and satisfies the invariant. -/
theorem C9_witness :
    ordersStatusOk (pay_order dbWithOrder 11 janeOrderId ⟨"card", none⟩).1 :=
  C9_status_invariant _
    (Reachable.step
      (Reachable.step
        (Reachable.step Reachable.init (Step.listPlans initDB 5))
        (Step.createOrder dbSeeded 7 janeBody))
      (Step.payOrder dbWithOrder 11 janeOrderId ⟨"card", none⟩))

/-- C10: `pay_order` ignores its request body entirely: any two payment
bodies applied to the same order in the same state at the same time give
the same stored order and the same returned record. -/
theorem C10_pay_order_ignores_body (dbSt : DB) (now : Nat) (order_id : String)
    (pb1 pb2 : PaymentBody) :
    pay_order dbSt now order_id pb1 = pay_order dbSt now order_id pb2 := rfl

end WillService
